import Mathlib

/-
Verification development for the TopGo RAG chatbot core
(src/rag/pipeline.py, src/llm/ollama_client.py, src/embeddings/search_engine.py).

Strings are modelled as Lean `String`/`List Char`.  The language model, the
JSON parser applied to language-model replies, and the vector index are
external collaborators and are modelled as oracle functions carried in an
environment record; every branch of the Python control flow around them is
embedded directly from the source.
-/

/-- Uppercase/lowercase pairs of the precomposed Vietnamese letters, used to
model Python `str.lower` / `str.upper` / `str.title` on the alphabet this
application works with (ASCII is handled separately). -/
def viCasePairs : List (Char × Char) :=
  [('À','à'), ('Á','á'), ('Ả','ả'), ('Ã','ã'), ('Ạ','ạ'),
   ('Ă','ă'), ('Ằ','ằ'), ('Ắ','ắ'), ('Ẳ','ẳ'), ('Ẵ','ẵ'), ('Ặ','ặ'),
   ('Â','â'), ('Ầ','ầ'), ('Ấ','ấ'), ('Ẩ','ẩ'), ('Ẫ','ẫ'), ('Ậ','ậ'),
   ('È','è'), ('É','é'), ('Ẻ','ẻ'), ('Ẽ','ẽ'), ('Ẹ','ẹ'),
   ('Ê','ê'), ('Ề','ề'), ('Ế','ế'), ('Ể','ể'), ('Ễ','ễ'), ('Ệ','ệ'),
   ('Ì','ì'), ('Í','í'), ('Ỉ','ỉ'), ('Ĩ','ĩ'), ('Ị','ị'),
   ('Ò','ò'), ('Ó','ó'), ('Ỏ','ỏ'), ('Õ','õ'), ('Ọ','ọ'),
   ('Ô','ô'), ('Ồ','ồ'), ('Ố','ố'), ('Ổ','ổ'), ('Ỗ','ỗ'), ('Ộ','ộ'),
   ('Ơ','ơ'), ('Ờ','ờ'), ('Ớ','ớ'), ('Ở','ở'), ('Ỡ','ỡ'), ('Ợ','ợ'),
   ('Ù','ù'), ('Ú','ú'), ('Ủ','ủ'), ('Ũ','ũ'), ('Ụ','ụ'),
   ('Ư','ư'), ('Ừ','ừ'), ('Ứ','ứ'), ('Ử','ử'), ('Ữ','ữ'), ('Ự','ự'),
   ('Ỳ','ỳ'), ('Ý','ý'), ('Ỷ','ỷ'), ('Ỹ','ỹ'), ('Ỵ','ỵ'),
   ('Đ','đ')]

/-- Model of Python `str.lower` on one character (ASCII plus Vietnamese). -/
def viToLower (c : Char) : Char :=
  match viCasePairs.lookup c with
  | some l => l
  | none => c.toLower

/-- Model of Python `str.upper` on one character (ASCII plus Vietnamese). -/
def viToUpper (c : Char) : Char :=
  match (viCasePairs.map (fun p => (p.2, p.1))).lookup c with
  | some u => u
  | none => c.toUpper

/-- A character is cased (bears case information) for the purposes of
Python `str.title`. -/
def viIsCased (c : Char) : Bool :=
  c.isAlpha || viCasePairs.any (fun p => p.1 == c || p.2 == c)

/-- Model of Python `str.lower`. -/
def pyLower (s : String) : String := ⟨s.data.map viToLower⟩

/-- Characters treated as whitespace by Python `str.strip`, `str.split`
and the regex class backslash-s (ASCII portion). -/
def pyIsSpace (c : Char) : Bool :=
  c == ' ' || c == '\t' || c == '\n' || c == '\r' || c == '\x0b' || c == '\x0c'

/-- Drop trailing whitespace of a character list. -/
def dropTrailingWS (l : List Char) : List Char :=
  (l.reverse.dropWhile pyIsSpace).reverse

/-- Model of Python `str.strip` on a character list. -/
def pyStripL (l : List Char) : List Char :=
  dropTrailingWS (l.dropWhile pyIsSpace)

/-- Model of Python `str.strip`. -/
def pyStrip (s : String) : String := ⟨pyStripL s.data⟩

/-- Model of Python `str.split()` with no argument: split on whitespace
runs, discarding empty chunks. -/
def pySplitWS (l : List Char) : List (List Char) :=
  (l.splitOnP pyIsSpace).filter (fun w => ¬ w.isEmpty)

/-- Does `p` occur at the start of `s`? -/
def prefixMatch : List Char → List Char → Bool
  | [], _ => true
  | _ :: _, [] => false
  | a :: as, b :: bs => a == b && prefixMatch as bs

/-- Does `p` occur somewhere inside `s`?  Model of Python `p in s`. -/
def infixMatch (p : List Char) : List Char → Bool
  | [] => p.isEmpty
  | b :: bs => prefixMatch p (b :: bs) || infixMatch p bs

/-- Model of Python `needle in hay` on strings. -/
def pyIn (needle hay : String) : Bool := infixMatch needle.data hay.data

/-- Case-insensitive `prefixMatch` (both sides lowered character-wise). -/
def ciPrefixMatch : List Char → List Char → Bool
  | [], _ => true
  | _ :: _, [] => false
  | a :: as, b :: bs => viToLower a == viToLower b && ciPrefixMatch as bs

/-- Model of `re.sub` with an escaped literal pattern `w` and
`re.IGNORECASE`: replace every leftmost non-overlapping case-insensitive
occurrence of `w` by `c`.  The first argument is fuel (one unit per
consumed character) making the recursion structural. -/
def ciReplaceAux (w c : List Char) : Nat → List Char → List Char
  | 0, l => l
  | _ + 1, [] => []
  | n + 1, x :: xs =>
    if w.length ≥ 1 && ciPrefixMatch w (x :: xs) then
      c ++ ciReplaceAux w c n (xs.drop (w.length - 1))
    else
      x :: ciReplaceAux w c n xs

/-- Replace every leftmost non-overlapping case-insensitive occurrence of
`w` in `l` by `c`. -/
def ciReplace (w c l : List Char) : List Char :=
  ciReplaceAux w c l.length l

/-- Model of `re.sub(re.escape(w), c, s, flags=re.IGNORECASE)` on strings. -/
def ciReplaceStr (w c s : String) : String := ⟨ciReplace w.data c.data s.data⟩

/-- The part of `s` before the first occurrence of `p`:
model of Python `s.split(p)[0]` when `p` occurs in `s`. -/
def beforeFirst (p : List Char) : List Char → List Char
  | [] => []
  | x :: xs => if prefixMatch p (x :: xs) then [] else x :: beforeFirst p xs

/-- Model of Python `s.split(p)[0]` on strings (`p` assumed to occur). -/
def beforeFirstStr (p s : String) : String := ⟨beforeFirst p.data s.data⟩

/-- Model of `[c.strip() for c in raw.split(',') if c.strip()]` guarded by
`raw` being a non-empty string (search_engine.py lines 154-162). -/
def splitCommaClean (raw : String) : List String :=
  if raw = "" then []
  else ((raw.data.splitOn ',').map pyStripL).filterMap
    (fun w => if w.isEmpty then none else some ⟨w⟩)

/-- Model of Python `str.title` (titlecase the first cased character of
every run of cased characters, lowercase the rest). -/
def pyTitleAux : Bool → List Char → List Char
  | _, [] => []
  | prevCased, x :: xs =>
    let cased := viIsCased x
    let y := if cased && ¬ prevCased then viToUpper x
             else if cased then viToLower x else x
    y :: pyTitleAux cased xs

/-- Model of Python `str.title` on strings. -/
def pyTitle (s : String) : String := ⟨pyTitleAux false s.data⟩

/-- Model of Python `s.replace('_', ' ')`. -/
def underscoreToSpace (s : String) : String :=
  ⟨s.data.map (fun c => if c == '_' then ' ' else c)⟩

/-
Model of the regular expression used in RAGPipeline._validate_district_in_query
(pipeline.py line 384):

  (?:quận|district)\s+([^,\.\?!\n]+?)(?:\s+(?:nhà|quán|bar|restaurant|karaoke|giá|rẻ|sang|$)|$)

searched with `re.search` over the lowercased query.  The backtracking
search order of the Python engine is modelled exactly: leftmost start
position first; at a start position the two keyword alternatives are
mutually exclusive (different first characters); the greedy `\s+` tries the
longest whitespace run first; the lazy captured group grows one character
at a time; `$` is modelled as end of string.
-/

/-- Characters excluded from the captured group `[^,\.\?!\n]`. -/
def regexExcluded (c : Char) : Bool :=
  c == ',' || c == '.' || c == '?' || c == '!' || c == '\n'

/-- The stop words of the tail alternation. -/
def regexStopWords : List (List Char) :=
  [("nhà").data, ("quán").data, ("bar").data, ("restaurant").data,
   ("karaoke").data, ("giá").data, ("rẻ").data, ("sang").data]

/-- After at least one whitespace character has been consumed by the tail
`\s+`: succeed on a stop word or at end of string, or consume more
whitespace. -/
def tailAfterSpaces : List Char → Bool
  | [] => true
  | c :: t =>
    regexStopWords.any (fun w => prefixMatch w (c :: t)) ||
    (pyIsSpace c && tailAfterSpaces t)

/-- Matches the tail `(?:\s+(?:stopword|$)|$)` against the remainder. -/
def regexTail : List Char → Bool
  | [] => true
  | c :: t => pyIsSpace c && tailAfterSpaces t

/-- Grow the lazy captured group one character at a time (shortest first),
returning the group of the first success. -/
def captureLoop (acc : List Char) : List Char → Option (List Char)
  | [] => none
  | c :: t =>
    if regexExcluded c then none
    else if regexTail t then some (acc ++ [c])
    else captureLoop (acc ++ [c]) t

/-- Try the greedy `\s+` with `w` whitespace characters consumed, longest
first, backtracking to shorter runs. -/
def tryWhitespace : Nat → List Char → Option (List Char)
  | 0, _ => none
  | w + 1, r =>
    match captureLoop [] (r.drop (w + 1)) with
    | some g => some g
    | none => tryWhitespace w r

/-- Match `\s+(capture)(tail)` against the remainder after a keyword. -/
def matchAfterKeyword (r : List Char) : Option (List Char) :=
  tryWhitespace (r.takeWhile pyIsSpace).length r

/-- Model of `re.search` for the whole pattern: scan start positions left
to right, returning the captured group of the first match. -/
def regexSearch : List Char → Option (List Char)
  | [] => none
  | c :: t =>
    if prefixMatch ("quận").data (c :: t) then
      match matchAfterKeyword ((c :: t).drop 4) with
      | some g => some g
      | none => regexSearch t
    else if prefixMatch ("district").data (c :: t) then
      match matchAfterKeyword ((c :: t).drop 8) with
      | some g => some g
      | none => regexSearch t
    else regexSearch t

example : regexSearch ("quận sao hỏa").data = some ("sao hỏa").data := by decide
example : regexSearch ("quận sao hỏa nhà hàng").data = some ("sao hỏa").data := by decide
example : regexSearch ("ăn ở quận cầu giấy").data = some ("cầu giấy").data := by decide
example : regexSearch ("không nói gì").data = none := by decide
example : pyLower "Quận SAO Hỏa" = "quận sao hỏa" := by decide
example : pyStrip "  xin chào \t" = "xin chào" := by decide
example : pyTitle "binh dan" = "Binh Dan" := by decide
example : ciReplaceStr "cầu gỗ" "Cầu Giấy" "Quán ở Cầu Gỗ rất ngon" = "Quán ở Cầu Giấy rất ngon" := by decide

/-
Fixed tables, transcribed from the source.
-/

/-- Strong venue-intent keywords (pipeline.py lines 212-223). -/
def restaurantKeywords : List String :=
  ["nhà hàng", "quán ăn", "quán", "bar", "pub", "karaoke",
   "buffet", "restaurant", "cafe", "quán cafe",
   "ăn", "món", "đồ ăn", "thức ăn", "bữa", "cơm", "phở",
   "bún", "mì", "lẩu", "nướng", "dimsum",
   "quận", "ở đâu", "gần", "phù hợp", "tốt", "ngon",
   "giá rẻ", "bình dân", "sang trọng", "cao cấp",
   "trung bình", "gợi ý", "giới thiệu", "tìm", "cho tôi",
   "tây", "ý", "nhật", "hàn", "trung", "việt", "âu", "á",
   "cầu giấy", "tây hồ", "hoàn kiếm", "ba đình", "đống đa",
   "hai bà trưng", "thanh xuân", "long biên", "hoàng mai"]

/-- Greeting tokens (pipeline.py line 229). -/
def greetingKeywords : List String := ["xin chào", "chào", "hello", "hi", "hey"]

/-- Off-topic keywords used by the conversational reply
(pipeline.py lines 305-311). -/
def nonRestaurantKeywords : List String :=
  ["toán", "tính", "+", "-", "*", "/", "bằng mấy", "kết quả",
   "thời tiết", "trời", "nắng", "mưa", "nhiệt độ",
   "tin tức", "bóng đá", "chính trị", "kinh tế",
   "lịch sử", "địa lý", "khoa học", "vật lý", "hóa học",
   "code", "lập trình", "python", "javascript"]

/-- Gazetteer of _validate_district_in_query (pipeline.py lines 362-374). -/
def validatorDistricts : List String :=
  ["ba đình", "ba dinh", "hoàn kiếm", "hoan kiem", "tây hồ", "tay ho",
   "long biên", "long bien", "cầu giấy", "cau giay", "đống đa", "dong da",
   "hai bà trưng", "hai ba trung", "hoàng mai", "hoang mai", "thanh xuân", "thanh xuan",
   "từ liêm", "tu liem", "nam từ liêm", "nam tu liem", "bắc từ liêm", "bac tu liem",
   "sóc sơn", "soc son", "đông anh", "dong anh", "gia lâm", "gia lam",
   "thanh trì", "thanh tri", "hà đông", "ha dong", "sơn tây", "son tay",
   "ba vì", "ba vi", "phúc thọ", "phuc tho", "đan phượng", "dan phuong",
   "hoài đức", "hoai duc", "quốc oai", "quoc oai", "thạch thất", "thach that",
   "chương mỹ", "chuong my", "thanh oai", "mỹ đức", "my duc",
   "ứng hòa", "ung hoa", "thường tín", "thuong tin", "phú xuyên", "phu xuyen",
   "mê linh", "me linh"]

/-- Gazetteer of _extract_filters_from_query (pipeline.py lines 467-479;
the source repeats the last pair). -/
def extractorDistricts : List String :=
  ["ba đình", "ba dinh", "hoàn kiếm", "hoan kiem", "tây hồ", "tay ho",
   "long biên", "long bien", "cầu giấy", "cau giay", "đống đa", "dong da",
   "hai bà trưng", "hai ba trung", "hoàng mai", "hoang mai", "thanh xuân", "thanh xuan",
   "từ liêm", "tu liem", "nam từ liêm", "nam tu liem", "bắc từ liêm", "bac tu liem",
   "sóc sơn", "soc son", "đông anh", "dong anh", "gia lâm", "gia lam",
   "thanh trì", "thanh tri", "hà đông", "ha dong", "sơn tây", "son tay",
   "ba vì", "ba vi", "phúc thọ", "phuc tho", "đan phượng", "dan phuong",
   "hoài đức", "hoai duc", "quốc oai", "quoc oai", "thạch thất", "thach that",
   "chương mỹ", "chuong my", "thanh oai", "mỹ đức", "my duc",
   "ứng hòa", "ung hoa", "thường tín", "thuong tin", "phú xuyên", "phu xuyen",
   "mê linh", "me linh", "thường tín", "thuong tin"]

/-- Known language-model misspellings of district names, in the insertion
order of the Python dict (pipeline.py lines 157-167). -/
def districtCorrections : List (String × String) :=
  [("hoàng kim", "Hoàn Kiếm"),
   ("hoang kim", "Hoàn Kiếm"),
   ("cầu gỗ", "Cầu Giấy"),
   ("cau go", "Cầu Giấy"),
   ("cầu giầy", "Cầu Giấy"),
   ("tây hô", "Tây Hồ"),
   ("tay ho", "Tây Hồ"),
   ("đồng đa", "Đống Đa"),
   ("dong da", "Đống Đa")]

/-- The fixed set of contradictory "nothing found" phrases
(pipeline.py lines 182-186). -/
def negativePhrases : List String :=
  ["Rất tiếc, tôi không tìm thấy",
   "Xin lỗi, không tìm thấy",
   "Không tìm thấy địa điểm phù hợp"]

/-- Price tier normalization map (pipeline.py lines 505-512). -/
def priceMap : List (String × String) :=
  [("binh dan", "binh_dan"), ("binh_dan", "binh_dan"),
   ("trung binh", "trung_binh"), ("trung_binh", "trung_binh"),
   ("cao cap", "cao_cap"), ("cao_cap", "cao_cap")]

/-
Data model.
-/

/-- A filter mapping with the three recognized keys, all optional.
Python `None` and the empty dict `{}` are both falsy and behave
identically everywhere in the pipeline, so both are represented by the
all-`none` value. -/
structure FilterDict where
  district : Option String
  business_type : Option String
  price_range : Option String
deriving DecidableEq

/-- The empty filter dict. -/
def emptyFD : FilterDict := ⟨none, none, none⟩

/-- Number of keys present: Python `len(filters)`. -/
def fdLen (f : FilterDict) : Nat :=
  (if f.district.isSome then 1 else 0) +
  (if f.business_type.isSome then 1 else 0) +
  (if f.price_range.isSome then 1 else 0)

/-- Python truthiness of the dict. -/
def fdNonempty (f : FilterDict) : Bool :=
  f.district.isSome || f.business_type.isSome || f.price_range.isSome

/-- Metadata stored for one document in the vector index
(create_embeddings.py stores every field as a string; a missing key reads
through `metadata.get(key, '')`). -/
structure Metadata where
  name : Option String
  business_type : Option String
  district : Option String
  price_range : Option String
  phone : Option String
  address : Option String
  url : Option String
  cuisine_type : Option String
  features : Option String
deriving DecidableEq

/-- One raw nearest-neighbor hit returned by the index:
document id, metadata, squared euclidean distance (floats are modelled
as exact rationals). -/
structure IndexHit where
  id : String
  metadata : Metadata
  distance : ℚ
deriving DecidableEq

/-- The fixed distance-to-similarity contract of the search engine
(search_engine.py line 148): `similarity = 1 / (1 + distance)`. -/
def similarity (d : ℚ) : ℚ := 1 / (1 + d)

/-- A formatted search result (search_engine.py lines 164-177). -/
structure Venue where
  id : String
  name : String
  business_type : String
  district : String
  price_range : String
  phone : String
  address : String
  url : String
  cuisine_type : List String
  features : List String
  similarity_score : ℚ
  rank : Nat
deriving DecidableEq

/-- Calls the pipeline makes to its external collaborators, recorded as a
trace so that "X is never invoked" claims are statements about the trace. -/
inductive Event where
  | retrieve (query : String) (filters : FilterDict) (k : Nat)
  | indexQuery (query : String) (k : Nat) (whereClause : Option FilterDict)
  | llmCall (prompt : String) (systemPrompt : String)
deriving DecidableEq

/-- Environment of external collaborators.  `llm` is the language-model
transport as seen through `RAGPipeline._llm_generate` (arguments: prompt,
system prompt, temperature, max tokens); a `.error` value models a raised
exception.  `parseClassJson` and `parseExtractJson` model the
`re.search` + `json.loads` treatment of a model reply (returning `none`
when no JSON object is found or the library raises).  `indexQuery` models
`collection.query` of ChromaDB, already unwrapped to a well-formed hit
list. -/
structure Env where
  llm_available : Bool
  search_top_k : Nat
  llm : String → String → ℚ → Nat → Except String String
  parseClassJson : String → Option (Option Bool × Option String)
  parseExtractJson : String → Option (Option String × Option String × Option String)
  indexQuery : String → Nat → Option FilterDict → List IndexHit

namespace RestaurantSearchEngine

/-- Valid districts in Hanoi (search_engine.py lines 14-45; the source
repeats one entry of its set literal). -/
def VALID_DISTRICTS : List String :=
  ["ba đình", "ba dinh", "hoàn kiếm", "hoan kiem", "tây hồ", "tay ho",
   "long biên", "long bien", "cầu giấy", "cau giay", "đống đa", "dong da",
   "hai bà trưng", "hai ba trung", "hoàng mai", "hoang mai", "thanh xuân", "thanh xuan",
   "sóc sơn", "soc son", "đông anh", "dong anh", "gia lâm", "gia lam",
   "nam từ liêm", "nam tu liem", "thanh trì", "thanh tri", "bắc từ liêm", "bac tu liem",
   "mê linh", "me linh", "hà đông", "ha dong", "sơn tây", "son tay",
   "ba vì", "ba vi", "phúc thọ", "phuc tho", "đan phượng", "dan phuong",
   "hoài đức", "hoai duc", "quốc oai", "quoc oai", "thạch thất", "thach that",
   "chương mỹ", "chuong my", "thanh oai", "thanh oai",
   "thường tín", "thuong tin", "phú xuyên", "phu xuyen",
   "ứng hòa", "ung hoa", "mỹ đức", "my duc"]

/-- Where clause sent to the index (search_engine.py lines 100-112): no
clause when no filters; otherwise the conjunction of all given filters
(the single-filter / `$and` wire formats carry the same constraint set and
are represented uniformly by the filter dict). -/
def buildWhere (f : FilterDict) : Option FilterDict :=
  if fdNonempty f then some f else none

/-- Format one raw hit into a result dict
(search_engine.py lines 143-178), with `i` the 0-based position. -/
def formatHit (i : Nat) (h : IndexHit) : Venue :=
  { id := h.id
    name := h.metadata.name.getD ""
    business_type := h.metadata.business_type.getD ""
    district := h.metadata.district.getD ""
    price_range := h.metadata.price_range.getD ""
    phone := h.metadata.phone.getD ""
    address := h.metadata.address.getD ""
    url := h.metadata.url.getD ""
    cuisine_type := splitCommaClean (h.metadata.cuisine_type.getD "")
    features := splitCommaClean (h.metadata.features.getD "")
    similarity_score := similarity h.distance
    rank := i + 1 }

/-- Format the whole hit list. -/
def formatHits (hits : List IndexHit) : List Venue :=
  hits.enum.map (fun p => formatHit p.1 p.2)

/-- RestaurantSearchEngine.search (search_engine.py lines 70-180):
validate a present district filter against the gazetteer (returning no
results and, crucially, not querying the index when it is invalid), then
query the index and format the hits. -/
def search (env : Env) (query : String) (n_results : Nat) (filters : FilterDict) :
    List Venue × List Event :=
  if fdNonempty filters && filters.district.isSome then
    let district_input := pyStrip (pyLower (filters.district.getD ""))
    if ¬ VALID_DISTRICTS.contains district_input then
      ([], [])
    else
      let w := buildWhere filters
      (formatHits (env.indexQuery query n_results w), [Event.indexQuery query n_results w])
  else
    let w := buildWhere filters
    (formatHits (env.indexQuery query n_results w), [Event.indexQuery query n_results w])

end RestaurantSearchEngine

/-
OllamaClient (src/llm/ollama_client.py).
-/

namespace OllamaClient

/-- Outcome of the HTTP POST in OllamaClient.generate, as observed by the
surrounding `try`: a 200 response whose JSON `response` field parses to a
string, a 200 response whose body fails to parse (the json library
raises), a non-200 status with its body text, a
`requests.exceptions.Timeout`, or any other raised exception. -/
inductive TransportOutcome where
  | ok200 (responseField : String)
  | okBadJson (msg : String)
  | badStatus (code : Nat) (text : String)
  | timeout
  | otherExn (msg : String)
deriving DecidableEq

/-- Full prompt construction (ollama_client.py lines 65-68). -/
def fullPrompt (prompt system_prompt : String) : String :=
  if system_prompt ≠ "" then system_prompt ++ "\n\n" ++ prompt else prompt

/-- OllamaClient.generate (ollama_client.py lines 44-106) for the
non-streaming path used by the pipeline: every transport failure is
caught and rendered as an ordinary string, never re-raised. -/
def generate (transport : String → TransportOutcome) (prompt system_prompt : String) : String :=
  match transport (fullPrompt prompt system_prompt) with
  | .ok200 r => r
  | .okBadJson m => "Error generating response: " ++ m
  | .badStatus code text => "Error: " ++ toString code ++ " - " ++ text
  | .timeout => "Error: Request timeout. Please try again."
  | .otherExn m => "Error generating response: " ++ m

/-- The fixed timeout error text. -/
def timeoutMessage : String := "Error: Request timeout. Please try again."

end OllamaClient

/-
PromptTemplates (src/rag/prompts.py).
-/

namespace PromptTemplates

/-- The fixed system instruction (prompts.py lines 10-59). -/
def SYSTEM_PROMPT : String :=
"Bạn là trợ lý AI thông minh chuyên tư vấn về nhà hàng, quán bar và karaoke tại Hà Nội.

QUAN TRỌNG: BẠN PHẢI TRẢ LỜI HOÀN TOÀN BẰNG TIẾNG VIỆT!

VAI TRÒ CỦA BẠN:
- Tư vấn và gợi ý địa điểm ăn uống, vui chơi phù hợp với nhu cầu của khách hàng
- Cung cấp thông tin chính xác dựa trên dữ liệu có sẵn
- Trả lời thân thiện, nhiệt tình và hữu ích bằng TIẾNG VIỆT
- Giải thích rõ ràng lý do gợi ý

GIỚI HẠN CHUYÊN MÔN:
- Bạn CHỈ chuyên về tư vấn nhà hàng, quán bar, karaoke tại Hà Nội
- Bạn KHÔNG có khả năng trả lời về: toán học, lịch sử, thời tiết, tin tức, khoa học, hoặc bất kỳ lĩnh vực nào khác
- Nếu người dùng hỏi về lĩnh vực khác, hãy lịch sự từ chối và hướng họ về chức năng tư vấn nhà hàng

QUY TẮC QUAN TRỌNG - NGHIÊM CẤM VI PHẠM:
1. ⛔ TUYỆT ĐỐI CẤM BỊA THÔNG TIN!
   - KHÔNG tự tạo tên nhà hàng, địa chỉ, số điện thoại
   - KHÔNG gợi ý địa điểm nào không có trong DỮ LIỆU được cung cấp
   - CHỈ giới thiệu các địa điểm CÓ TRONG DỮ LIỆU
   
2. PHẢI trả lời HOÀN TOÀN bằng TIẾNG VIỆT - KHÔNG được dùng tiếng Anh

3. CHỈ sử dụng thông tin từ \"DỮ LIỆU CÁC ĐỊA ĐIỂM PHÙ HỢP\"
   - Copy chính xác: tên, địa chỉ, số điện thoại từ dữ liệu
   - KHÔNG được chỉnh sửa hoặc thay đổi bất kỳ thông tin nào
   
4. Nếu không có dữ liệu → Nói rõ \"Không tìm thấy\"
   - KHÔNG gợi ý bất kỳ địa điểm cụ thể nào
   - CHỈ đưa ra lời khuyên chung: thử quận khác, điều chỉnh giá, v.v.
   
5. Nếu câu hỏi KHÔNG liên quan đến nhà hàng/ăn uống → Nói rõ bạn chỉ chuyên tư vấn nhà hàng

ĐỊNH DẠNG TRẢ LỜI (Bằng tiếng Việt):
- Mở đầu thân thiện (VD: \"Chào bạn!\", \"Dạ vâng!\")
- Giới thiệu ngắn gọn các gợi ý (2-5 địa điểm)
- Chi tiết từng địa điểm với thông tin đầy đủ
- Kết thúc với lời khuyên hoặc gợi ý thêm

VÍ DỤ TRẢ LỜI TỐT:
\"Chào bạn! Tôi xin giới thiệu một số nhà hàng phù hợp:

🍽️ Cơm Việt Heritage - nhà hàng bình dân phù hợp gia đình
- Địa chỉ: 17T9 Nguyễn Thị Thập, Cầu Giấy
- Số điện thoại: 0913515351
- Giá cả: Bình dân (dưới 200K/người)
- Đặc điểm: Không gian rộng rãi, thực đơn đa dạng

Bạn nên đặt bàn trước để đảm bảo có chỗ ngồi tốt!\"
"

/-- Percent formatting of a similarity score, model of the Python format
spec `.0%` (rounding on exact rationals). -/
def pctFormat (q : ℚ) : String := toString (round (q * 100) : ℤ) ++ "%"

/-- Context block of one venue (prompts.py lines 105-148).  On
search-produced results every key is present, so the `.get(key, 'N/A')`
defaults are never taken. -/
def venueContext (i : Nat) (r : Venue) : String :=
  let base :=
    "\n" ++ toString (i + 1) ++ ". " ++ r.name ++
    "\n   - Loại hình: " ++ pyTitle r.business_type ++
    "\n   - Quận: " ++ r.district ++
    "\n   - Mức giá: " ++ pyTitle (underscoreToSpace r.price_range) ++
    "\n   - Số điện thoại: " ++ r.phone ++
    "\n   - Địa chỉ: " ++ r.address
  let cuisine_str := String.intercalate ", " (r.cuisine_type.filter (fun c => c ≠ ""))
  let features_str := String.intercalate ", " ((r.features.take 5).filter (fun c => c ≠ ""))
  let base := if cuisine_str ≠ "" then base ++ "\n   - Ẩm thực: " ++ cuisine_str else base
  let base := if features_str ≠ "" then base ++ "\n   - Đặc điểm: " ++ features_str else base
  base ++ "\n   - Độ phù hợp: " ++ pctFormat r.similarity_score

/-- PromptTemplates.format_restaurant_context (prompts.py lines 89-150). -/
def format_restaurant_context (restaurants : List Venue) : String :=
  if restaurants.isEmpty then "Không tìm thấy địa điểm phù hợp."
  else String.intercalate "\n" (restaurants.enum.map (fun p => venueContext p.1 p.2))

/-- PromptTemplates.build_prompt = QUERY_PROMPT.format(query, context)
(prompts.py lines 61-87 and 152-169). -/
def build_prompt (query : String) (restaurants : List Venue) : String :=
  "Dựa trên thông tin sau đây, hãy tư vấn cho khách hàng BẰNG TIẾNG VIỆT:

CÂU HỎI KHÁCH HÀNG:
" ++ query ++ "

DỮ LIỆU CÁC ĐỊA ĐIỂM PHÙ HỢP:
" ++ format_restaurant_context restaurants ++ "

⚠️ QUY TẮC BẮT BUỘC:
1. KIỂM TRA dữ liệu trước:
   - NẾU có dữ liệu địa điểm → Giới thiệu các địa điểm đó một cách nhiệt tình
   - NẾU KHÔNG có dữ liệu → Chỉ khi đó mới nói \"Rất tiếc, tôi không tìm thấy...\"

2. KHI CÓ DỮ LIỆU:
   - CHỈ giới thiệu các địa điểm có trong DỮ LIỆU
   - KHÔNG tự bịa tên, địa chỉ, số điện thoại
   - Phải cung cấp đầy đủ: tên, địa chỉ, số điện thoại
   - ⛔ TUYỆT ĐỐI KHÔNG thay đổi tên quận từ dữ liệu!
     VD: \"Hoàn Kiếm\" → PHẢI viết \"Hoàn Kiếm\" (KHÔNG viết \"Hoàng Kim\")
     VD: \"Cầu Giấy\" → PHẢI viết \"Cầu Giấy\" (KHÔNG viết \"Cầu Gỗ\" hay \"Cầu Giầy\")
   - Copy CHÍNH XÁC tên quận từ dữ liệu, không sửa đổi!
   - KẾT THÚC bằng lời khuyên hữu ích (đặt bàn trước, thời gian tốt nhất, v.v.)
   - KHÔNG thêm câu \"không tìm thấy\" khi đã giới thiệu địa điểm

3. CHỈ nói \"Rất tiếc, tôi không tìm thấy địa điểm phù hợp\" KHI dữ liệu trống hoặc không phù hợp

Hãy trả lời HOÀN TOÀN bằng TIẾNG VIỆT, dựa CHÍNH XÁC vào dữ liệu được cung cấp."

end PromptTemplates

/-
RAGPipeline (src/rag/pipeline.py).
-/

namespace RAGPipeline

/-- Fixed reply when no venue was retrieved and the model is available
(pipeline.py lines 131-138; the source has two trailing blanks after
"mức giá"). -/
def noResultsMessage : String :=
"Rất tiếc, tôi không tìm thấy địa điểm nào phù hợp với yêu cầu của bạn trong cơ sở dữ liệu hiện tại.

Bạn có thể thử:
- Mở rộng khu vực tìm kiếm (thử các quận khác)
- Điều chỉnh mức giá  
- Thay đổi loại hình (nhà hàng, bar, karaoke)

Hoặc cho tôi biết thêm chi tiết về nhu cầu của bạn để tôi có thể tư vấn tốt hơn."

/-- Fixed invalid-district reply of the orchestrator (pipeline.py line 575). -/
def invalidDistrictMessage (d : String) : String :=
  "Xin lỗi, quận \x27" ++ d ++ "\x27 không tồn tại tại Hà Nội. Hà Nội có các quận sau: Hoàn Kiếm, Ba Đình, Tây Hồ, Cầu Giấy, Đống Đa, Hai Bà Trưng, Thanh Xuân, Long Biên, Hoàng Mai, Hà Đông và các huyện ngoại thành. Bạn có thể chọn một quận khác."

/-- Conversational reply when the model is down (pipeline.py line 302). -/
def convUnavailableMessage : String :=
  "Xin chào! Tôi là trợ lý tư vấn nhà hàng tại Hà Nội. Bạn cần tìm loại địa điểm nào?"

/-- Fixed refusal for off-topic queries (pipeline.py lines 317-324). -/
def offTopicMessage : String :=
"Xin lỗi bạn, tôi là chuyên viên tư vấn về nhà hàng, quán bar và karaoke tại Hà Nội. Tôi không có khả năng trả lời về các vấn đề khác.

Tôi chỉ có thể giúp bạn:
- Tìm nhà hàng phù hợp
- Gợi ý quán bar, karaoke
- Tư vấn địa điểm ăn uống theo nhu cầu

Bạn cần tìm loại địa điểm nào?"

/-- Fixed greeting reply (pipeline.py lines 328-335). -/
def greetingMessage : String :=
"Xin chào! Tôi là trợ lý AI chuyên tư vấn về nhà hàng, quán bar và karaoke tại Hà Nội.

Tôi có thể giúp bạn:
- Tìm nhà hàng theo loại hình, quận, mức giá
- Gợi ý địa điểm phù hợp cho các dịp đặc biệt
- Tư vấn quán bar, karaoke

Bạn đang tìm loại địa điểm nào?"

/-- Search-only reply when nothing was found (pipeline.py line 619). -/
def searchOnlyEmptyMessage : String :=
  "Không tìm thấy địa điểm phù hợp với yêu cầu của bạn."

/-- Classification prompt (pipeline.py lines 241-262). -/
def classificationPrompt (query : String) : String :=
  "Phân tích câu hỏi của người dùng và trả lời theo format JSON:

Câu hỏi: \"" ++ query ++ "\"

Hãy xác định:
1. Người dùng có đang TÌM KIẾM nhà hàng/quán bar/karaoke cụ thể không?
2. Hay chỉ đang chào hỏi/hỏi thông tin chung về chatbot?

Trả lời CHÍNH XÁC theo format JSON này (không giải thích thêm):
\x7b
    \"needs_search\": true/false,
    \"response_type\": \"greeting\" hoặc \"general_question\" hoặc \"restaurant_query\",
    \"reasoning\": \"lý do ngắn gọn\"
\x7d

VÍ DỤ:
- \"hello\" → \x7b\"needs_search\": false, \"response_type\": \"greeting\", \"reasoning\": \"Chỉ chào hỏi\"\x7d
- \"bạn là ai\" → \x7b\"needs_search\": false, \"response_type\": \"general_question\", \"reasoning\": \"Hỏi về chatbot\"\x7d
- \"tìm nhà hàng bình dân\" → \x7b\"needs_search\": true, \"response_type\": \"restaurant_query\", \"reasoning\": \"Tìm nhà hàng cụ thể\"\x7d
- \"quán nào ngon ở cầu giấy\" → \x7b\"needs_search\": true, \"response_type\": \"restaurant_query\", \"reasoning\": \"Hỏi về địa điểm\"\x7d

Chỉ trả về JSON, không có text khác."

/-- System prompt of the classification call (pipeline.py line 267). -/
def classificationSystemPrompt : String :=
  "Bạn là AI phân loại câu hỏi. Chỉ trả về JSON, không giải thích thêm."

/-- Filter extraction prompt (pipeline.py lines 424-448; the source has
two trailing blanks after "karaoke"). -/
def extractionPrompt (query : String) : String :=
  "Phân tích câu hỏi và trích xuất thông tin:

Câu hỏi: \"" ++ query ++ "\"

Tìm các thông tin sau (NẾU CÓ trong câu hỏi):
1. Quận (CHỈ các quận HỢP LỆ ở Hà Nội): Tây Hồ, Hoàn Kiếm, Cầu Giấy, Ba Đình, Đống Đa, Hai Bà Trưng, Thanh Xuân, Long Biên, Hoàng Mai
2. Loại: restaurant (nhà hàng), bar (quán bar), karaoke  
3. Giá: binh_dan (bình dân/rẻ), trung_binh (trung bình), cao_cap (sang/cao cấp)

QUAN TRỌNG:
- CHỈ trích xuất quận NẾU nó là quận THẬT của Hà Nội
- NẾU quận KHÔNG HỢP LỆ (ví dụ: \"sao Hỏa\", \"sao Mars\", v.v.) → KHÔNG trả về district
- KHÔNG tự sửa hoặc đoán tên quận
- price_range: \"binh_dan\" hoặc \"trung_binh\" hoặc \"cao_cap\" (chữ thường, gạch dưới)
- business_type: \"restaurant\" hoặc \"bar\" hoặc \"karaoke\"
- Nếu KHÔNG chắc chắn → bỏ qua key đó

Trả lời CHÍNH XÁC theo format JSON (KHÔNG thêm text):
\x7b
    \"district\": \"Tây Hồ\",
    \"business_type\": \"restaurant\",
    \"price_range\": \"binh_dan\"
\x7d

Bây giờ trích xuất (chỉ JSON):"

/-- System prompt of the extraction call (pipeline.py line 453). -/
def extractionSystemPrompt : String := "Trả về JSON. KHÔNG giải thích."

/-- Conversational prompt for general questions (pipeline.py lines 337-346). -/
def conversationPrompt (query : String) : String :=
  "Người dùng hỏi: " ++ query ++ "

Trả lời NGẮN GỌN (2-3 câu) bằng TIẾNG VIỆT:

Nếu hỏi về BẠN:
- Giới thiệu: \"Tôi là trợ lý AI chuyên tư vấn nhà hàng, quán bar và karaoke tại Hà Nội.\"
- Chức năng: \"Tôi có thể giúp bạn tìm địa điểm ăn uống phù hợp với nhu cầu.\"
- Hỏi ngược: \"Bạn cần tìm loại địa điểm nào?\"

KHÔNG liệt kê nhà hàng cụ thể."

/-- System prompt of the conversational call (pipeline.py line 350). -/
def conversationSystemPrompt : String :=
  "Bạn là trợ lý AI chuyên tư vấn nhà hàng tại Hà Nội. Trả lời ngắn gọn, thân thiện."

end RAGPipeline

namespace RAGPipeline

/-- Listing block for one venue in the search-only fallback
(pipeline.py lines 623-636). -/
def venueListing (i : Nat) (r : Venue) : String :=
  let base :=
    toString (i + 1) ++ ". " ++ r.name ++ "\n" ++
    "   - Loại: " ++ pyTitle r.business_type ++ "\n" ++
    "   - Quận: " ++ r.district ++ "\n" ++
    "   - Giá: " ++ pyTitle (underscoreToSpace r.price_range) ++ "\n" ++
    "   - SĐT: " ++ r.phone ++ "\n" ++
    "   - Địa chỉ: " ++ r.address ++ "\n"
  let cuisines := String.intercalate ", " (r.cuisine_type.filter (fun c => c ≠ ""))
  let base :=
    if ¬ r.cuisine_type.isEmpty && cuisines ≠ "" then
      base ++ "   - Ẩm thực: " ++ cuisines ++ "\n"
    else base
  base ++ "\n"

/-- RAGPipeline._format_search_only_response (pipeline.py lines 616-638):
the deterministic templated listing used whenever the model is
unavailable or generation failed. -/
def format_search_only_response (restaurants : List Venue) : String :=
  if restaurants.isEmpty then searchOnlyEmptyMessage
  else
    "Tìm thấy " ++ toString restaurants.length ++ " địa điểm phù hợp:\n\n" ++
    String.join (restaurants.enum.map (fun p => venueListing p.1 p.2))

/-- Is one correction entry applicable?  The source checks the
misspelling against the lowercase of the raw model output (computed once,
before the correction loop) and the correct name against the districts of
the retrieved venues (pipeline.py lines 170-172). -/
def correctionApplicable (response_lower : String) (actual_districts : List String)
    (wc : String × String) : Bool :=
  pyIn wc.1 response_lower && actual_districts.contains wc.2

/-- District self-correction pass of RAGPipeline.generate
(pipeline.py lines 151-177). -/
def districtCorrectionsPass (context_restaurants : List Venue) (response : String) : String :=
  if context_restaurants.isEmpty then response
  else
    let actual_districts := context_restaurants.map Venue.district
    let response_lower := pyLower response
    districtCorrections.foldl
      (fun r wc =>
        if correctionApplicable response_lower actual_districts wc then
          ciReplaceStr wc.1 wc.2 r
        else r)
      response

/-- Contradiction suppression pass of RAGPipeline.generate
(pipeline.py lines 179-191). -/
def negativePhrasePass (context_restaurants : List Venue) (response : String) : String :=
  if ¬ context_restaurants.isEmpty && response.length > 100 then
    negativePhrases.foldl
      (fun r p => if pyIn p r then pyStrip (beforeFirstStr p r) else r)
      response
  else response

/-- RAGPipeline.generate (pipeline.py lines 105-192).  A `.error` result
models an exception escaping the generation step. -/
def generate (env : Env) (query : String) (context_restaurants : List Venue)
    (temperature : ℚ) (max_tokens : Nat) : Except String String × List Event :=
  if ¬ env.llm_available then
    (.ok (format_search_only_response context_restaurants), [])
  else if context_restaurants.isEmpty then
    (.ok noResultsMessage, [])
  else
    let prompt := PromptTemplates.build_prompt query context_restaurants
    match env.llm prompt PromptTemplates.SYSTEM_PROMPT temperature max_tokens with
    | .error e => (.error e, [Event.llmCall prompt PromptTemplates.SYSTEM_PROMPT])
    | .ok response =>
      (.ok (negativePhrasePass context_restaurants
              (districtCorrectionsPass context_restaurants response)),
       [Event.llmCall prompt PromptTemplates.SYSTEM_PROMPT])

/-- RAGPipeline._classify_query_with_llm (pipeline.py lines 194-288).
The result models the returned dict through the two accesses the
orchestrator performs: the truthiness of `needs_search` (default True)
and the `response_type` string (default greeting). -/
def classify_query_with_llm (env : Env) (query : String) :
    (Option Bool × Option String) × List Event :=
  if ¬ env.llm_available then ((some true, some "restaurant_query"), [])
  else
    let query_lower := pyLower query
    let has_restaurant_keyword := restaurantKeywords.any (fun k => pyIn k query_lower)
    let is_pure_greeting := greetingKeywords.any (fun g => pyStrip query_lower == g)
    if has_restaurant_keyword then ((some true, some "restaurant_query"), [])
    else if is_pure_greeting then ((some false, some "greeting"), [])
    else
      let p := classificationPrompt query
      match env.llm p classificationSystemPrompt (1/10) 150 with
      | .error _ =>
          ((some true, some "restaurant_query"), [Event.llmCall p classificationSystemPrompt])
      | .ok resp =>
        match env.parseClassJson resp with
        | some result => (result, [Event.llmCall p classificationSystemPrompt])
        | none =>
            ((some true, some "restaurant_query"), [Event.llmCall p classificationSystemPrompt])

/-- RAGPipeline._generate_conversational_response (pipeline.py
lines 290-355). -/
def generate_conversational_response (env : Env) (query : String) (response_type : String) :
    Except String String × List Event :=
  if ¬ env.llm_available then (.ok convUnavailableMessage, [])
  else
    let query_lower := pyLower query
    let is_non_restaurant := nonRestaurantKeywords.any (fun k => pyIn k query_lower)
    if is_non_restaurant then (.ok offTopicMessage, [])
    else if response_type == "greeting" then (.ok greetingMessage, [])
    else
      let p := conversationPrompt query
      match env.llm p conversationSystemPrompt (5/10) 150 with
      | .error e => (.error e, [Event.llmCall p conversationSystemPrompt])
      | .ok r => (.ok r, [Event.llmCall p conversationSystemPrompt])

/-- RAGPipeline._validate_district_in_query (pipeline.py lines 357-403). -/
def validate_district_in_query (query : String) : Bool × String :=
  let query_lower := pyLower query
  if pyIn "quận" query_lower || pyIn "district" query_lower then
    match regexSearch query_lower.data with
    | some g =>
      let mentioned := pyStripL g
      let ws := pySplitWS mentioned
      let mentioned := if ws.length > 3 then List.intercalate (" ").data (ws.take 3) else mentioned
      let mentioned := pyStripL mentioned
      if ¬ mentioned.isEmpty && ¬ validatorDistricts.contains ⟨mentioned⟩ then
        (false, ⟨mentioned⟩)
      else (true, "")
    | none => (true, "")
  else (true, "")

/-- Result of filter extraction: either the invalid-district marker dict
or a validated filter dict. -/
inductive ExtractResult where
  | invalidDistrict (d : String)
  | filters (f : FilterDict)
deriving DecidableEq

/-- Per-field validation of the filters parsed from the model reply
(pipeline.py lines 481-517). -/
def validateRawFilters (raw : Option String × Option String × Option String) : FilterDict :=
  let district := match raw.1 with
    | some d =>
      if d ≠ "" then
        let dist := pyStrip d
        if extractorDistricts.contains (pyLower dist) then some dist else none
      else none
    | none => none
  let business_type := match raw.2.1 with
    | some b =>
      if b ≠ "" then
        let btype := pyLower (pyStrip b)
        if (["restaurant", "bar", "karaoke"] : List String).contains btype then some btype
        else none
      else none
    | none => none
  let price_range := match raw.2.2 with
    | some p =>
      if p ≠ "" then
        let price := pyStrip p
        match priceMap.lookup (pyLower price) with
        | some normalized => some normalized
        | none => none
      else none
    | none => none
  ⟨district, business_type, price_range⟩

/-- RAGPipeline._extract_filters_from_query (pipeline.py lines 405-523). -/
def extract_filters_from_query (env : Env) (query : String) : ExtractResult × List Event :=
  if ¬ env.llm_available then (.filters emptyFD, [])
  else
    match validate_district_in_query query with
    | (false, invalid_district) => (.invalidDistrict invalid_district, [])
    | (true, _) =>
      let p := extractionPrompt query
      match env.llm p extractionSystemPrompt (1/10) 100 with
      | .error _ => (.filters emptyFD, [Event.llmCall p extractionSystemPrompt])
      | .ok resp =>
        match env.parseExtractJson resp with
        | some raw => (.filters (validateRawFilters raw), [Event.llmCall p extractionSystemPrompt])
        | none => (.filters emptyFD, [Event.llmCall p extractionSystemPrompt])

/-- Model of Python `top_k or self.search_top_k` (pipeline.py line 100):
`None` and `0` are both falsy. -/
def resolveTopK (top_k : Option Nat) (search_top_k : Nat) : Nat :=
  match top_k with
  | some k => if k = 0 then search_top_k else k
  | none => search_top_k

/-- RAGPipeline.retrieve (pipeline.py lines 83-103). -/
def retrieve (env : Env) (query : String) (filters : FilterDict) (top_k : Option Nat) :
    List Venue × List Event :=
  let k := resolveTopK top_k env.search_top_k
  let (vs, tr) := RestaurantSearchEngine.search env query k filters
  (vs, Event.retrieve query filters k :: tr)

/-- The dictionary returned by RAGPipeline.answer. -/
structure AnswerResult where
  query : String
  answer : String
  num_sources : Nat
  sources : Option (List Venue)
deriving DecidableEq

/-- Step 3 of RAGPipeline.answer (pipeline.py lines 566-569): caller
filters are used as-is when truthy, otherwise they are extracted from the
query. -/
def extractStep (env : Env) (query : String) (filters : FilterDict) :
    ExtractResult × List Event :=
  if fdNonempty filters then (.filters filters, []) else extract_filters_from_query env query

/-- RAGPipeline.answer (pipeline.py lines 525-614).  The only call the
orchestrator leaves unguarded is the conversational-reply generation, so
that is the only branch able to propagate an exception (`.error`). -/
def answer (env : Env) (query : String) (filters : FilterDict) (top_k : Option Nat)
    (temperature : ℚ) (max_tokens : Nat) (return_sources : Bool) :
    Except String AnswerResult × List Event :=
  match classify_query_with_llm env query with
  | (classification, tr0) =>
    if ¬ (classification.1.getD true) then
      let response_type := classification.2.getD "greeting"
      match generate_conversational_response env query response_type with
      | (.ok a, tr1) =>
          (.ok ⟨query, a, 0, if return_sources then some [] else none⟩, tr0 ++ tr1)
      | (.error e, tr1) => (.error e, tr0 ++ tr1)
    else
      match extractStep env query filters with
      | (.invalidDistrict invalid_district, tr1) =>
          (.ok ⟨query, invalidDistrictMessage invalid_district, 0,
                if return_sources then some [] else none⟩, tr0 ++ tr1)
      | (.filters f, tr1) =>
        match retrieve env query f top_k with
        | (restaurants, tr2) =>
          let gen :=
            if env.llm_available then
              match generate env query restaurants temperature max_tokens with
              | (.ok a, t) => (a, t)
              | (.error _, t) => (format_search_only_response restaurants, t)
            else (format_search_only_response restaurants, ([] : List Event))
          (.ok ⟨query, gen.1, restaurants.length,
                if return_sources then some restaurants else none⟩,
           tr0 ++ tr1 ++ tr2 ++ gen.2)

end RAGPipeline

/-
Concrete fixtures used by witnesses and counterexamples.
-/

/-- A concrete metadata record as create_embeddings.py stores it. -/
def testMetadata : Metadata :=
  { name := some "Quan Ngon", business_type := some "restaurant",
    district := some "Cầu Giấy", price_range := some "binh_dan",
    phone := some "0913515351", address := some "17T9 Nguyen Thi Thap",
    url := some "http://topgo.vn/r1", cuisine_type := some "Việt,Âu",
    features := some "Gia Đình" }

/-- A concrete index hit at squared distance 1. -/
def testHit : IndexHit := { id := "r1", metadata := testMetadata, distance := 1 }

/-- Environment with the model down and one venue in the index. -/
def envNoLLM : Env :=
  { llm_available := false, search_top_k := 5,
    llm := fun _ _ _ _ => .ok "",
    parseClassJson := fun _ => none,
    parseExtractJson := fun _ => none,
    indexQuery := fun _ _ _ => [testHit] }

/-- Environment whose model transport raises on every call. -/
def envLLMErr : Env :=
  { llm_available := true, search_top_k := 5,
    llm := fun _ _ _ _ => .error "requests.exceptions.ReadTimeout",
    parseClassJson := fun _ => none,
    parseExtractJson := fun _ => none,
    indexQuery := fun _ _ _ => [testHit] }

/-- Environment whose model transport is OllamaClient.generate over a
timing-out HTTP connection (it never raises; it returns the error text). -/
def envTimeoutLLM : Env :=
  { llm_available := true, search_top_k := 5,
    llm := fun p s _ _ => .ok (OllamaClient.generate (fun _ => .timeout) p s),
    parseClassJson := fun _ => none,
    parseExtractJson := fun _ => none,
    indexQuery := fun _ _ _ => [testHit] }

example : RAGPipeline.validate_district_in_query "tìm nhà hàng ở quận sao hỏa" =
    (false, "sao hỏa") := by decide
example : RAGPipeline.validate_district_in_query "quán ngon ở quận cầu giấy" =
    (true, "") := by decide
example : (RAGPipeline.answer envNoLLM "quận sao hỏa" emptyFD none (7/10) 800 true).2 =
    [Event.retrieve "quận sao hỏa" emptyFD 5, Event.indexQuery "quận sao hỏa" 5 none] := by decide

/-
Infrastructure lemmas about the string primitives.
-/

theorem prefixMatch_append_left (p : List Char) :
    ∀ l r : List Char, prefixMatch p l = true → prefixMatch p (l ++ r) = true := by
  induction p with
  | nil => intro l r _; rfl
  | cons a as ih =>
    intro l r h
    cases l with
    | nil => simp [prefixMatch] at h
    | cons b bs =>
      simp only [prefixMatch, Bool.and_eq_true, beq_iff_eq] at h ⊢
      exact ⟨h.1, ih bs r h.2⟩

theorem prefixMatch_iff (p : List Char) :
    ∀ s : List Char, prefixMatch p s = true ↔ p <+: s := by
  induction p with
  | nil => intro s; simp [prefixMatch]
  | cons a as ih =>
    intro s
    cases s with
    | nil => simp [prefixMatch]
    | cons b bs =>
      simp only [prefixMatch, Bool.and_eq_true, beq_iff_eq, ih, List.cons_prefix_cons]

theorem infixMatch_iff (p : List Char) :
    ∀ s : List Char, infixMatch p s = true ↔ p <:+: s := by
  intro s
  induction s with
  | nil =>
    simp only [infixMatch, List.isEmpty_iff, List.infix_nil]
  | cons b bs ih =>
    simp only [infixMatch, Bool.or_eq_true, prefixMatch_iff, ih]
    constructor
    · rintro (h | h)
      · exact h.isInfix
      · exact List.infix_cons h
    · intro h
      rcases h with ⟨t, u, heq⟩
      cases t with
      | nil => exact Or.inl ⟨u, by simpa using heq⟩
      | cons c t' =>
        right
        refine ⟨t', u, ?_⟩
        have heq' := heq
        simp only [List.cons_append, List.cons.injEq] at heq'
        exact heq'.2

theorem strip_decomp (l : List Char) :
    ∃ w1 w2 : List Char, l = w1 ++ pyStripL l ++ w2 ∧
      (∀ c ∈ w1, pyIsSpace c = true) ∧ (∀ c ∈ w2, pyIsSpace c = true) := by
  refine ⟨l.takeWhile pyIsSpace,
          ((l.dropWhile pyIsSpace).reverse.takeWhile pyIsSpace).reverse, ?_, ?_, ?_⟩
  · conv_lhs => rw [← List.takeWhile_append_dropWhile (p := pyIsSpace) (l := l)]
    rw [List.append_assoc]
    congr 1
    conv_lhs =>
      rw [← List.reverse_reverse (l.dropWhile pyIsSpace),
          ← List.takeWhile_append_dropWhile (p := pyIsSpace)
            (l := (l.dropWhile pyIsSpace).reverse),
          List.reverse_append]
    rfl
  · intro c hc; exact List.mem_takeWhile_imp hc
  · intro c hc; rw [List.mem_reverse] at hc; exact List.mem_takeWhile_imp hc

theorem pyStripL_isInfix (l : List Char) : pyStripL l <:+: l := by
  obtain ⟨w1, w2, heq, _, _⟩ := strip_decomp l
  exact ⟨w1, w2, heq.symm⟩

theorem infix_cons_ws {k : List Char} {c : Char} {l : List Char}
    (hne : k ≠ []) (hhead : ∀ a t, k = a :: t → pyIsSpace a = false)
    (hws : pyIsSpace c = true) (h : k <:+: c :: l) : k <:+: l := by
  rcases h with ⟨t, u, heq⟩
  cases t with
  | nil =>
    cases k with
    | nil => exact absurd rfl hne
    | cons a t' =>
      simp only [List.nil_append, List.cons_append, List.cons.injEq] at heq
      have hfa := hhead a t' rfl
      rw [heq.1, hws] at hfa
      cases hfa
  | cons b t' =>
    simp only [List.cons_append, List.cons.injEq] at heq
    exact ⟨t', u, heq.2⟩

theorem infix_strip_ws_left {k : List Char} (hne : k ≠ [])
    (hhead : ∀ a t, k = a :: t → pyIsSpace a = false) :
    ∀ w1 : List Char, (∀ c ∈ w1, pyIsSpace c = true) →
      ∀ l, k <:+: w1 ++ l → k <:+: l := by
  intro w1
  induction w1 with
  | nil => intro _ l h; simpa using h
  | cons c w' ih =>
    intro hws l h
    have h1 : k <:+: w' ++ l :=
      infix_cons_ws hne hhead (hws c (by simp)) (by simpa using h)
    exact ih (fun d hd => hws d (by simp [hd])) l h1

theorem infix_through_ws {k g w1 w2 : List Char} (hne : k ≠ [])
    (hhead : ∀ a t, k = a :: t → pyIsSpace a = false)
    (hlast : ∀ a t, k.reverse = a :: t → pyIsSpace a = false)
    (hw1 : ∀ c ∈ w1, pyIsSpace c = true) (hw2 : ∀ c ∈ w2, pyIsSpace c = true)
    (h : k <:+: w1 ++ (g ++ w2)) : k <:+: g := by
  have h1 : k <:+: g ++ w2 := infix_strip_ws_left hne hhead w1 hw1 _ h
  have h2 : k.reverse <:+: w2.reverse ++ g.reverse := by
    rw [← List.reverse_append]
    exact List.reverse_infix.2 h1
  have hner : k.reverse ≠ [] := by
    intro hr; exact hne (by simpa using congrArg List.reverse hr)
  have h3 : k.reverse <:+: g.reverse :=
    infix_strip_ws_left hner hlast w2.reverse
      (fun c hc => hw2 c (List.mem_reverse.1 hc)) _ h2
  have h4 := List.reverse_infix.2 h3
  simpa using h4

theorem beforeFirst_isPrefix (p : List Char) : ∀ l, beforeFirst p l <+: l := by
  intro l
  induction l with
  | nil => simp [beforeFirst]
  | cons x xs ih =>
    simp only [beforeFirst]
    split
    · exact List.nil_prefix
    · exact (List.cons_prefix_cons).2 ⟨rfl, ih⟩

theorem pyIn_of_strip_before {q p response : String}
    (h : pyIn q (pyStrip (beforeFirstStr p response)) = true) :
    pyIn q response = true := by
  rw [pyIn, infixMatch_iff] at h ⊢
  have h1 : (pyStrip (beforeFirstStr p response)).data <:+: (beforeFirstStr p response).data :=
    pyStripL_isInfix _
  have h2 : (beforeFirstStr p response).data <+: response.data := beforeFirst_isPrefix _ _
  exact (h.trans h1).trans h2.isInfix

theorem foldl_if_id {α β : Type} (cond : α → Bool) (f : α → β → β) :
    ∀ (L : List α) (r : β), (∀ a ∈ L, cond a = false) →
      L.foldl (fun r a => if cond a then f a r else r) r = r := by
  intro L
  induction L with
  | nil => intro r _; rfl
  | cons a L' ih =>
    intro r h
    have ha := h a (by simp)
    simp only [List.foldl_cons, ha, Bool.false_eq_true, if_false]
    exact ih r (fun b hb => h b (by simp [hb]))

theorem foldl_if_single {α β : Type} (cond : α → Bool) (f : α → β → β) :
    ∀ (L : List α) (r : β) (x : α), L.Nodup → x ∈ L → cond x = true →
      (∀ y ∈ L, y ≠ x → cond y = false) →
      L.foldl (fun r a => if cond a then f a r else r) r = f x r := by
  intro L
  induction L with
  | nil => intro r x _ hx; cases hx
  | cons a L' ih =>
    intro r x hnd hx hcx hother
    rcases List.mem_cons.1 hx with rfl | hx'
    · simp only [List.foldl_cons, hcx, if_true]
      refine foldl_if_id cond f L' (f x r) ?_
      intro y hy
      refine hother y (by simp [hy]) ?_
      rintro rfl
      exact (List.nodup_cons.1 hnd).1 hy
    · have hax : a ≠ x := by rintro rfl; exact (List.nodup_cons.1 hnd).1 hx'
      have ha := hother a (by simp) hax
      simp only [List.foldl_cons, ha, Bool.false_eq_true, if_false]
      exact ih r x (List.nodup_cons.1 hnd).2 hx' hcx
        (fun y hy hne => hother y (by simp [hy]) hne)

theorem negfold_id (L : List String) :
    ∀ r : String, (∀ p ∈ L, pyIn p r = false) →
      L.foldl (fun r p => if pyIn p r then pyStrip (beforeFirstStr p r) else r) r = r := by
  induction L with
  | nil => intro r _; rfl
  | cons p L' ih =>
    intro r h
    have hp := h p (by simp)
    simp only [List.foldl_cons, hp, Bool.false_eq_true, if_false]
    exact ih r (fun q hq => h q (by simp [hq]))

/-
Claim theorems.
-/

/-- C8: for all distances d ≥ 0 the conversion `similarity d = 1/(1+d)`
used by RestaurantSearchEngine.search is strictly monotonically
decreasing in d, lies in (0, 1], and maps d = 0 to exactly 1. -/
theorem C8_similarity_contract :
    (∀ d₁ d₂ : ℚ, 0 ≤ d₁ → d₁ < d₂ → similarity d₂ < similarity d₁) ∧
    (∀ d : ℚ, 0 ≤ d → 0 < similarity d ∧ similarity d ≤ 1) ∧
    similarity 0 = 1 := by
  refine ⟨?_, ?_, ?_⟩
  · intro d₁ d₂ h1 h2
    unfold similarity
    apply one_div_lt_one_div_of_lt <;> linarith
  · intro d hd
    unfold similarity
    constructor
    · positivity
    · rw [div_le_one] <;> linarith
  · norm_num [similarity]

/-- Witness for C8 at the concrete distances 1 and 2. -/
theorem C8_witness :
    similarity 2 < similarity 1 ∧ (0 < similarity 1 ∧ similarity 1 ≤ 1) ∧
    similarity 0 = 1 :=
  ⟨C8_similarity_contract.1 1 2 (by norm_num) (by norm_num),
   C8_similarity_contract.2.1 1 (by norm_num),
   C8_similarity_contract.2.2⟩

/-- C4: with the model available, RAGPipeline.generate on an empty venue
list returns the fixed "nothing found, try adjusting filters" message
verbatim and performs no model call (empty trace). -/
theorem C4_empty_venue_guard (env : Env) (query : String) (temperature : ℚ)
    (max_tokens : Nat) (hav : env.llm_available = true) :
    RAGPipeline.generate env query [] temperature max_tokens =
      (.ok RAGPipeline.noResultsMessage, []) := by
  unfold RAGPipeline.generate
  simp [hav]

/-- Witness for C4: a concrete available environment and query. -/
theorem C4_witness :
    RAGPipeline.generate envLLMErr "tìm quán bar" [] (7/10) 800 =
      (.ok RAGPipeline.noResultsMessage, []) :=
  C4_empty_venue_guard envLLMErr "tìm quán bar" (7/10) 800 rfl

/-- Helper: the deterministic keyword rule of the classifier. -/
theorem classify_keyword_rule (env : Env) (query : String)
    (h : ∃ k ∈ restaurantKeywords, pyIn k (pyLower query) = true) :
    RAGPipeline.classify_query_with_llm env query =
      ((some true, some "restaurant_query"), []) := by
  unfold RAGPipeline.classify_query_with_llm
  rcases Bool.eq_false_or_eq_true env.llm_available with hav | hav
  · simp [hav]
    intro hall
    rcases h with ⟨k, hk, hin⟩
    rw [hall k hk] at hin
    cases hin
  · simp [hav]

/-- C5: a query containing any venue-intent keyword is classified
`needs_search = true`, kind `restaurant_query` (the code's name for the
spec's venue_query), in every environment -- with or without the model --
and the model is never consulted (empty trace). -/
theorem C5_keyword_rule (env : Env) (query : String)
    (h : ∃ k ∈ restaurantKeywords, pyIn k (pyLower query) = true) :
    RAGPipeline.classify_query_with_llm env query =
      ((some true, some "restaurant_query"), []) :=
  classify_keyword_rule env query h

/-- Witness for C5: the query "tìm nhà hàng gần đây" with the
model-down environment. -/
theorem C5_witness :
    (∃ k ∈ restaurantKeywords, pyIn k (pyLower "tìm nhà hàng gần đây") = true) ∧
    RAGPipeline.classify_query_with_llm envNoLLM "tìm nhà hàng gần đây" =
      ((some true, some "restaurant_query"), []) :=
  ⟨⟨"nhà hàng", by decide, by decide⟩,
   C5_keyword_rule envNoLLM "tìm nhà hàng gần đây" ⟨"nhà hàng", by decide, by decide⟩⟩

/-- Equality on `Except` results is decidable (used to evaluate concrete
pipeline runs). -/
instance {ε α : Type} [DecidableEq ε] [DecidableEq α] : DecidableEq (Except ε α) :=
  fun a b =>
    match a, b with
    | .ok x, .ok y =>
      if h : x = y then isTrue (by rw [h]) else isFalse (fun hh => h (by cases hh; rfl))
    | .error x, .error y =>
      if h : x = y then isTrue (by rw [h]) else isFalse (fun hh => h (by cases hh; rfl))
    | .ok _, .error _ => isFalse (fun hh => by cases hh)
    | .error _, .ok _ => isFalse (fun hh => by cases hh)

/-- Counterexample to C1 as stated: with the language model UNAVAILABLE,
the invalid-district pre-check never runs (extraction returns the empty
filter dict immediately), so for the query "quận sao hỏa" the pipeline
does NOT return the invalid-district message, the retriever IS invoked,
and a source is returned. -/
theorem C1_counterexample :
    (RAGPipeline.answer envNoLLM "quận sao hỏa" emptyFD none (7/10) 800 true).1 ≠
      .ok ⟨"quận sao hỏa", RAGPipeline.invalidDistrictMessage "sao hỏa", 0, some []⟩ ∧
    Event.retrieve "quận sao hỏa" emptyFD 5 ∈
      (RAGPipeline.answer envNoLLM "quận sao hỏa" emptyFD none (7/10) 800 true).2 :=
  ⟨by decide, by decide⟩

/-- C1 (amended): WHEN THE MODEL IS AVAILABLE, a query containing "quận"
followed by a district the validator rejects, with no caller filters,
makes answer() return the fixed invalid-district message with zero
sources and an empty trace: the retriever (and the index, and the model)
are never invoked.  (Restricting the location keyword to "quận" keeps the
rule-based classifier on the retrieval path; "district"-only queries may
be diverted to a conversational reply by the model-assisted classifier.) -/
theorem C1_invalid_district_short_circuit (env : Env) (query d : String)
    (top_k : Option Nat) (temperature : ℚ) (max_tokens : Nat)
    (hav : env.llm_available = true)
    (hkw : pyIn "quận" (pyLower query) = true)
    (hval : RAGPipeline.validate_district_in_query query = (false, d)) :
    RAGPipeline.answer env query emptyFD top_k temperature max_tokens true =
      (.ok ⟨query, RAGPipeline.invalidDistrictMessage d, 0, some []⟩, []) := by
  have hclass := classify_keyword_rule env query ⟨"quận", by decide, hkw⟩
  have hes : RAGPipeline.extractStep env query emptyFD =
      (.invalidDistrict d, []) := by
    unfold RAGPipeline.extractStep RAGPipeline.extract_filters_from_query
    rw [hval]
    simp [hav, fdNonempty, emptyFD]
  unfold RAGPipeline.answer
  rw [hclass, hes]
  rfl

/-- Witness for the amended C1: a concrete available environment and the
query "quận sao hỏa". -/
theorem C1_witness :
    RAGPipeline.answer envLLMErr "quận sao hỏa" emptyFD none (7/10) 800 true =
      (.ok ⟨"quận sao hỏa", RAGPipeline.invalidDistrictMessage "sao hỏa", 0, some []⟩, []) :=
  C1_invalid_district_short_circuit envLLMErr "quận sao hỏa" "sao hỏa" none (7/10) 800
    rfl (by decide) (by decide)

/-- C2: on the retrieval path, if retrieval produced a non-empty venue
list and the generation step throws, answer() catches the exception and
the final answer is exactly the deterministic templated listing of the
retrieved venues, with them as sources -- never a propagated error. -/
theorem C2_generation_throw_fallback (env : Env) (query : String) (filters : FilterDict)
    (top_k : Option Nat) (temperature : ℚ) (max_tokens : Nat) (return_sources : Bool)
    (f : FilterDict) (e : String)
    (hav : env.llm_available = true)
    (hclass : (RAGPipeline.classify_query_with_llm env query).1.1.getD true = true)
    (hextract : (RAGPipeline.extractStep env query filters).1 = .filters f)
    (hne : (RAGPipeline.retrieve env query f top_k).1 ≠ [])
    (hthrow : env.llm
        (PromptTemplates.build_prompt query (RAGPipeline.retrieve env query f top_k).1)
        PromptTemplates.SYSTEM_PROMPT temperature max_tokens = .error e) :
    (RAGPipeline.answer env query filters top_k temperature max_tokens return_sources).1 =
      .ok ⟨query,
           RAGPipeline.format_search_only_response (RAGPipeline.retrieve env query f top_k).1,
           (RAGPipeline.retrieve env query f top_k).1.length,
           if return_sources then some (RAGPipeline.retrieve env query f top_k).1 else none⟩ := by
  rcases hc : RAGPipeline.classify_query_with_llm env query with ⟨c, tr0⟩
  rcases hes : RAGPipeline.extractStep env query filters with ⟨er, tr1⟩
  rcases hr : RAGPipeline.retrieve env query f top_k with ⟨vs, tr2⟩
  rw [hc] at hclass
  rw [hes] at hextract
  rw [hr] at hne hthrow
  simp only at hclass hextract hne hthrow
  subst hextract
  have hgen : RAGPipeline.generate env query vs temperature max_tokens =
      (.error e, [Event.llmCall (PromptTemplates.build_prompt query vs)
                    PromptTemplates.SYSTEM_PROMPT]) := by
    unfold RAGPipeline.generate
    simp [hav, hthrow, List.isEmpty_iff, hne]
  unfold RAGPipeline.answer
  rw [hc, hes]
  simp [hclass, hr, hgen, hav]

/-- Witness for C2: a concrete environment whose model transport raises,
the query "tìm nhà hàng", retrieval returning one venue. -/
theorem C2_witness :
    (RAGPipeline.answer envLLMErr "tìm nhà hàng" emptyFD none (7/10) 800 true).1 =
      .ok ⟨"tìm nhà hàng",
           RAGPipeline.format_search_only_response
             (RAGPipeline.retrieve envLLMErr "tìm nhà hàng" emptyFD none).1,
           (RAGPipeline.retrieve envLLMErr "tìm nhà hàng" emptyFD none).1.length,
           some (RAGPipeline.retrieve envLLMErr "tìm nhà hàng" emptyFD none).1⟩ :=
  C2_generation_throw_fallback envLLMErr "tìm nhà hàng" emptyFD none (7/10) 800 true emptyFD
    "requests.exceptions.ReadTimeout" rfl (by decide) (by decide) (by decide) rfl

theorem string_data_append (a b : String) : (a ++ b).data = a.data ++ b.data := rfl

/-- Helper: OllamaClient.generate over an always-timing-out transport
returns exactly the timeout text. -/
theorem ollama_generate_timeout (prompt system_prompt : String) :
    OllamaClient.generate (fun _ => OllamaClient.TransportOutcome.timeout)
      prompt system_prompt = OllamaClient.timeoutMessage := rfl

/-- Helper: the district-correction pass leaves the timeout text alone
(no misspelling occurs in it). -/
theorem corrections_pass_timeoutMessage (venues : List Venue) :
    RAGPipeline.districtCorrectionsPass venues OllamaClient.timeoutMessage =
      OllamaClient.timeoutMessage := by
  unfold RAGPipeline.districtCorrectionsPass
  cases hv : venues.isEmpty
  · simp only [Bool.false_eq_true, if_false]
    refine foldl_if_id _ _ districtCorrections OllamaClient.timeoutMessage ?_
    intro wc hwc
    have hdec : ∀ wc ∈ districtCorrections,
        pyIn wc.1 (pyLower OllamaClient.timeoutMessage) = false := by decide
    simp [RAGPipeline.correctionApplicable, hdec wc hwc]
  · simp [hv]

/-- Helper: the contradiction-suppression pass leaves the timeout text
alone (it is shorter than 100 characters). -/
theorem negpass_timeoutMessage (venues : List Venue) :
    RAGPipeline.negativePhrasePass venues OllamaClient.timeoutMessage =
      OllamaClient.timeoutMessage := by
  have hlen : ¬ (OllamaClient.timeoutMessage.length > 100) := by decide
  unfold RAGPipeline.negativePhrasePass
  simp [hlen]

/-- Helper: generation backed by a timing-out Ollama transport SUCCEEDS
(no exception) and returns the error text. -/
theorem generate_with_timeout_transport (env : Env) (query : String) (venues : List Venue)
    (temperature : ℚ) (max_tokens : Nat)
    (hllm : env.llm = fun p s _ _ =>
      .ok (OllamaClient.generate (fun _ => OllamaClient.TransportOutcome.timeout) p s))
    (hav : env.llm_available = true) (hne : venues ≠ []) :
    RAGPipeline.generate env query venues temperature max_tokens =
      (.ok OllamaClient.timeoutMessage,
       [Event.llmCall (PromptTemplates.build_prompt query venues)
          PromptTemplates.SYSTEM_PROMPT]) := by
  unfold RAGPipeline.generate
  rw [hllm]
  simp [hav, List.isEmpty_iff, hne, ollama_generate_timeout,
        corrections_pass_timeoutMessage, negpass_timeoutMessage]

/-- Helper: the search-only listing of a non-empty venue list starts with
the letter T, hence differs from any Ollama error text. -/
theorem timeoutMessage_ne_listing (vs : List Venue) (hne : vs ≠ []) :
    OllamaClient.timeoutMessage ≠ RAGPipeline.format_search_only_response vs := by
  cases vs with
  | nil => exact absurd rfl hne
  | cons v vs' =>
    intro h
    have hh := congrArg (fun s => s.data.head?) h
    simp only at hh
    have h1 : (RAGPipeline.format_search_only_response (v :: vs')).data.head? = some 'T' := rfl
    rw [h1] at hh
    exact absurd hh (by decide)

/-- C3: OllamaClient.generate never raises -- every transport failure is
returned as an ordinary string beginning with "Error" -- and consequently
a model outage during generation yields that error text as the
pipeline's final answer (generation succeeds, so the orchestrator's
exception-based fallback to the templated listing is NOT triggered). -/
theorem C3_ollama_error_contract :
    (∀ (transport : String → OllamaClient.TransportOutcome) (prompt system_prompt : String),
        (∀ r, transport (OllamaClient.fullPrompt prompt system_prompt) ≠
            OllamaClient.TransportOutcome.ok200 r) →
        prefixMatch ("Error").data
          (OllamaClient.generate transport prompt system_prompt).data = true) ∧
    (∀ (env : Env) (query : String) (filters : FilterDict) (top_k : Option Nat)
        (temperature : ℚ) (max_tokens : Nat) (return_sources : Bool) (f : FilterDict),
        env.llm = (fun p s _ _ =>
          .ok (OllamaClient.generate (fun _ => OllamaClient.TransportOutcome.timeout) p s)) →
        env.llm_available = true →
        (RAGPipeline.classify_query_with_llm env query).1.1.getD true = true →
        (RAGPipeline.extractStep env query filters).1 = .filters f →
        (RAGPipeline.retrieve env query f top_k).1 ≠ [] →
        (RAGPipeline.answer env query filters top_k temperature max_tokens return_sources).1 =
          .ok ⟨query, OllamaClient.timeoutMessage,
               (RAGPipeline.retrieve env query f top_k).1.length,
               if return_sources then some (RAGPipeline.retrieve env query f top_k).1
               else none⟩ ∧
        OllamaClient.timeoutMessage ≠
          RAGPipeline.format_search_only_response
            (RAGPipeline.retrieve env query f top_k).1) := by
  constructor
  · intro transport prompt sys hfail
    unfold OllamaClient.generate
    cases htr : transport (OllamaClient.fullPrompt prompt sys) with
    | ok200 r => exact absurd htr (hfail r)
    | okBadJson m =>
      rw [string_data_append]
      exact prefixMatch_append_left _ _ _ (by decide)
    | badStatus code text =>
      rw [string_data_append, string_data_append, string_data_append]
      exact prefixMatch_append_left _ _ _
        (prefixMatch_append_left _ _ _ (prefixMatch_append_left _ _ _ (by decide)))
    | timeout => decide
    | otherExn m =>
      rw [string_data_append]
      exact prefixMatch_append_left _ _ _ (by decide)
  · intro env query filters top_k temperature max_tokens return_sources f
      hllm hav hclass hextract hne
    rcases hc : RAGPipeline.classify_query_with_llm env query with ⟨c, tr0⟩
    rcases hes : RAGPipeline.extractStep env query filters with ⟨er, tr1⟩
    rcases hr : RAGPipeline.retrieve env query f top_k with ⟨vs, tr2⟩
    rw [hc] at hclass
    rw [hes] at hextract
    rw [hr] at hne
    simp only at hclass hextract hne
    subst hextract
    have hgen := generate_with_timeout_transport env query vs temperature max_tokens hllm hav hne
    constructor
    · unfold RAGPipeline.answer
      rw [hc, hes]
      simp [hclass, hr, hgen, hav]
    · exact timeoutMessage_ne_listing vs hne

/-- Witness for C3: the timeout transport on a concrete prompt, and the
timeout-backed environment on the query "tìm nhà hàng". -/
theorem C3_witness :
    prefixMatch ("Error").data
      (OllamaClient.generate (fun _ => OllamaClient.TransportOutcome.timeout)
        "xin tư vấn" "").data = true ∧
    ((RAGPipeline.answer envTimeoutLLM "tìm nhà hàng" emptyFD none (7/10) 800 true).1 =
        .ok ⟨"tìm nhà hàng", OllamaClient.timeoutMessage,
             (RAGPipeline.retrieve envTimeoutLLM "tìm nhà hàng" emptyFD none).1.length,
             some (RAGPipeline.retrieve envTimeoutLLM "tìm nhà hàng" emptyFD none).1⟩ ∧
      OllamaClient.timeoutMessage ≠
        RAGPipeline.format_search_only_response
          (RAGPipeline.retrieve envTimeoutLLM "tìm nhà hàng" emptyFD none).1) :=
  ⟨C3_ollama_error_contract.1 (fun _ => OllamaClient.TransportOutcome.timeout)
      "xin tư vấn" "" (fun r h => by cases h),
   C3_ollama_error_contract.2 envTimeoutLLM "tìm nhà hàng" emptyFD none (7/10) 800 true
      emptyFD rfl rfl (by decide) (by decide) (by decide)⟩

/-- Helper: a query whose normalized form is exactly a greeting token
contains no off-topic keyword (the lowered query is the greeting padded
with whitespace, every off-topic keyword starts and ends with a
non-whitespace character, and none occurs inside a greeting token). -/
theorem greeting_blocks_nonrestaurant (query g : String)
    (hg : g ∈ greetingKeywords) (hs : pyStrip (pyLower query) = g) :
    nonRestaurantKeywords.any (fun k => pyIn k (pyLower query)) = false := by
  rw [Bool.eq_false_iff]
  intro hany
  obtain ⟨k, hk, hin⟩ := List.any_eq_true.1 hany
  have hshape : ∀ k' ∈ nonRestaurantKeywords,
      k'.data ≠ [] ∧ (k'.data.head?.all (fun a => ¬ pyIsSpace a)) = true ∧
      (k'.data.reverse.head?.all (fun a => ¬ pyIsSpace a)) = true := by decide
  obtain ⟨hkne, hkhd, hklast⟩ := hshape k hk
  have hgl : pyStripL (pyLower query).data = g.data := congrArg String.data hs
  obtain ⟨w1, w2, heq, hw1, hw2⟩ := strip_decomp (pyLower query).data
  rw [hgl] at heq
  have hinf : k.data <:+: (pyLower query).data := (infixMatch_iff _ _).1 hin
  rw [heq, List.append_assoc] at hinf
  have hinfg : k.data <:+: g.data := by
    refine infix_through_ws hkne ?_ ?_ hw1 hw2 hinf
    · intro a t hat
      rw [hat] at hkhd
      simpa using hkhd
    · intro a t hat
      rw [hat] at hklast
      simpa using hklast
  have hng : ∀ k' ∈ nonRestaurantKeywords, ∀ g' ∈ greetingKeywords,
      infixMatch k'.data g'.data = false := by decide
  have := hng k hk g hg
  rw [(infixMatch_iff _ _).2 hinfg] at this
  cases this

set_option maxRecDepth 8192 in
/-- Counterexample to C6 as stated: greeting classification is NOT
independent of model availability.  With the model down, the classifier
returns `needs_search = true` before the greeting rule is ever
consulted, so answer("xin chào") runs retrieval and returns one source. -/
theorem C6_counterexample :
    (RAGPipeline.classify_query_with_llm envNoLLM "xin chào").1 =
      (some true, some "restaurant_query") ∧
    Event.retrieve "xin chào" emptyFD 5 ∈
      (RAGPipeline.answer envNoLLM "xin chào" emptyFD none (7/10) 800 true).2 ∧
    ((RAGPipeline.answer envNoLLM "xin chào" emptyFD none (7/10) 800 true).1.map
        (fun r => (r.answer, r.num_sources))) =
      .ok (RAGPipeline.format_search_only_response
             [RestaurantSearchEngine.formatHit 0 testHit], 1) :=
  ⟨by decide, by decide, by decide⟩

/-- C6 (amended): WHEN THE MODEL IS AVAILABLE, a query whose normalized
text exactly equals a greeting token and that contains no venue-intent
keyword is classified `needs_search = false`, kind greeting, and
answer() returns the fixed conversational greeting reply with zero
sources and an empty trace (no retrieval call). -/
theorem C6_greeting_rule (env : Env) (query : String) (top_k : Option Nat)
    (temperature : ℚ) (max_tokens : Nat)
    (hav : env.llm_available = true)
    (hg : ∃ g ∈ greetingKeywords, pyStrip (pyLower query) = g)
    (hnk : ∀ k ∈ restaurantKeywords, pyIn k (pyLower query) = false) :
    RAGPipeline.classify_query_with_llm env query = ((some false, some "greeting"), []) ∧
    RAGPipeline.answer env query emptyFD top_k temperature max_tokens true =
      (.ok ⟨query, RAGPipeline.greetingMessage, 0, some []⟩, []) := by
  obtain ⟨g, hgmem, hgs⟩ := hg
  have hany : restaurantKeywords.any (fun k => pyIn k (pyLower query)) = false := by
    rw [Bool.eq_false_iff]
    intro h'
    obtain ⟨k, hk, hin⟩ := List.any_eq_true.1 h'
    rw [hnk k hk] at hin
    cases hin
  have hgr : greetingKeywords.any (fun g' => pyStrip (pyLower query) == g') = true :=
    List.any_eq_true.2 ⟨g, hgmem, by simp [hgs]⟩
  have hclass : RAGPipeline.classify_query_with_llm env query =
      ((some false, some "greeting"), []) := by
    unfold RAGPipeline.classify_query_with_llm
    simp [hav, hany, hgr]
  have hnr := greeting_blocks_nonrestaurant query g hgmem hgs
  have hconv : RAGPipeline.generate_conversational_response env query "greeting" =
      (.ok RAGPipeline.greetingMessage, []) := by
    unfold RAGPipeline.generate_conversational_response
    simp [hav, hnr]
  refine ⟨hclass, ?_⟩
  unfold RAGPipeline.answer
  rw [hclass]
  simp only [Option.getD_some, Bool.not_false]
  rw [hconv]
  rfl

/-- Witness for the amended C6: the query "xin chào" with an available
environment. -/
theorem C6_witness :
    RAGPipeline.classify_query_with_llm envLLMErr "xin chào" =
      ((some false, some "greeting"), []) ∧
    RAGPipeline.answer envLLMErr "xin chào" emptyFD none (7/10) 800 true =
      (.ok ⟨"xin chào", RAGPipeline.greetingMessage, 0, some []⟩, []) :=
  C6_greeting_rule envLLMErr "xin chào" none (7/10) 800 rfl
    ⟨"xin chào", by decide, by decide⟩ (by decide)

/-- An index-query event carries no invalid district: whenever it
forwards a filter dict with a district value, that value passes the
search-engine gazetteer (after the same lower/strip normalization the
engine applies). -/
def indexEventOK (e : Event) : Prop :=
  ∀ q n f d, e = Event.indexQuery q n (some f) → f.district = some d →
    RestaurantSearchEngine.VALID_DISTRICTS.contains (pyStrip (pyLower d)) = true

/-- A trace consisting only of model calls. -/
def llmOnly (tr : List Event) : Prop :=
  ∀ e ∈ tr, ∃ p s, e = Event.llmCall p s

theorem llmCall_indexEventOK {p s : String} : indexEventOK (Event.llmCall p s) := by
  intro q n f d heq
  cases heq

theorem retrieveEvent_indexEventOK {q : String} {f : FilterDict} {k : Nat} :
    indexEventOK (Event.retrieve q f k) := by
  intro q' n f' d heq
  cases heq

theorem llmOnly_indexEventOK {tr : List Event} (h : llmOnly tr) :
    ∀ e ∈ tr, indexEventOK e := by
  intro e he
  obtain ⟨p, s, rfl⟩ := h e he
  exact llmCall_indexEventOK

theorem district_isSome_fdNonempty {f : FilterDict} (h : f.district.isSome = true) :
    fdNonempty f = true := by
  unfold fdNonempty
  rw [h]
  rfl

theorem search_events_ok (env : Env) (q : String) (n : Nat) (f : FilterDict) :
    ∀ e ∈ (RestaurantSearchEngine.search env q n f).2, indexEventOK e := by
  intro e he
  unfold RestaurantSearchEngine.search at he
  by_cases h1 : (fdNonempty f && f.district.isSome) = true
  · rw [if_pos h1] at he
    by_cases h2 : RestaurantSearchEngine.VALID_DISTRICTS.contains
        (pyStrip (pyLower (f.district.getD ""))) = true
    · rw [if_neg (not_not_intro h2)] at he
      rw [List.mem_singleton] at he
      subst he
      intro q' n' f' d heq hd
      injection heq with hq hn hw
      have hw' : some f' = RestaurantSearchEngine.buildWhere f := hw.symm
      unfold RestaurantSearchEngine.buildWhere at hw'
      by_cases h3 : fdNonempty f = true
      · rw [if_pos h3] at hw'
        injection hw' with hff
        subst hff
        rw [hd] at h2
        simpa using h2
      · rw [if_neg h3] at hw'
        cases hw'
    · rw [if_pos h2] at he
      cases he
  · rw [if_neg h1] at he
    rw [List.mem_singleton] at he
    subst he
    intro q' n' f' d heq hd
    injection heq with hq hn hw
    unfold RestaurantSearchEngine.buildWhere at hw
    by_cases h3 : fdNonempty f = true
    · rw [if_pos h3] at hw
      injection hw with hff
      subst hff
      have hds : f.district.isSome = true := by rw [hd]; rfl
      exact absurd (by simp [h3, hds] :
        (fdNonempty f && f.district.isSome) = true) h1
    · rw [if_neg h3] at hw
      cases hw

theorem retrieve_events_ok (env : Env) (q : String) (f : FilterDict) (top_k : Option Nat) :
    ∀ e ∈ (RAGPipeline.retrieve env q f top_k).2, indexEventOK e := by
  intro e he
  unfold RAGPipeline.retrieve at he
  simp only [List.mem_cons] at he
  rcases he with rfl | he
  · exact retrieveEvent_indexEventOK
  · exact search_events_ok env q _ f e (by
      rcases hs : RestaurantSearchEngine.search env q (RAGPipeline.resolveTopK top_k env.search_top_k) f
        with ⟨vs, tr⟩
      rw [hs] at he
      simpa using he)

theorem classify_events_llmOnly (env : Env) (q : String) :
    llmOnly (RAGPipeline.classify_query_with_llm env q).2 := by
  intro e he
  simp only [RAGPipeline.classify_query_with_llm] at he
  repeat' split at he
  all_goals
    first
      | exact absurd he (List.not_mem_nil e)
      | (rw [List.mem_singleton] at he; exact ⟨_, _, he⟩)

theorem extract_events_llmOnly (env : Env) (q : String) :
    llmOnly (RAGPipeline.extract_filters_from_query env q).2 := by
  intro e he
  simp only [RAGPipeline.extract_filters_from_query] at he
  repeat' split at he
  all_goals
    first
      | exact absurd he (List.not_mem_nil e)
      | (rw [List.mem_singleton] at he; exact ⟨_, _, he⟩)

theorem extractStep_events_llmOnly (env : Env) (q : String) (filters : FilterDict) :
    llmOnly (RAGPipeline.extractStep env q filters).2 := by
  intro e he
  unfold RAGPipeline.extractStep at he
  split at he
  · cases he
  · exact extract_events_llmOnly env q e he

theorem conv_events_llmOnly (env : Env) (q rt : String) :
    llmOnly (RAGPipeline.generate_conversational_response env q rt).2 := by
  intro e he
  simp only [RAGPipeline.generate_conversational_response] at he
  repeat' split at he
  all_goals
    first
      | exact absurd he (List.not_mem_nil e)
      | (rw [List.mem_singleton] at he; exact ⟨_, _, he⟩)

theorem generate_events_llmOnly (env : Env) (q : String) (venues : List Venue)
    (temperature : ℚ) (max_tokens : Nat) :
    llmOnly (RAGPipeline.generate env q venues temperature max_tokens).2 := by
  intro e he
  simp only [RAGPipeline.generate] at he
  repeat' split at he
  all_goals
    first
      | exact absurd he (List.not_mem_nil e)
      | (rw [List.mem_singleton] at he; exact ⟨_, _, he⟩)

/-- C7: invariant over all execution paths of answer() (caller-supplied
or extracted filters): every query event the pipeline sends to the
vector index carries either no district or a district that passes the
search-engine gazetteer -- an unvalidated district never reaches the
index. -/
theorem C7_validated_district_invariant (env : Env) (query : String) (filters : FilterDict)
    (top_k : Option Nat) (temperature : ℚ) (max_tokens : Nat) (return_sources : Bool) :
    ∀ e ∈ (RAGPipeline.answer env query filters top_k temperature max_tokens
             return_sources).2, indexEventOK e := by
  intro e he
  rcases hc : RAGPipeline.classify_query_with_llm env query with ⟨c, tr0⟩
  have htr0 : llmOnly tr0 := by
    have h := classify_events_llmOnly env query
    rw [hc] at h
    exact h
  simp only [RAGPipeline.answer] at he
  rw [hc] at he
  by_cases hns : (c.1.getD true) = true
  · rw [if_neg (not_not_intro hns)] at he
    rcases hes : RAGPipeline.extractStep env query filters with ⟨er, tr1⟩
    have htr1 : llmOnly tr1 := by
      have h := extractStep_events_llmOnly env query filters
      rw [hes] at h
      exact h
    rw [hes] at he
    cases er with
    | invalidDistrict d =>
      simp only [List.mem_append] at he
      rcases he with he | he
      · exact llmOnly_indexEventOK htr0 e he
      · exact llmOnly_indexEventOK htr1 e he
    | filters f =>
      simp only [List.mem_append] at he
      rcases he with ((he | he) | he) | he
      · exact llmOnly_indexEventOK htr0 e he
      · exact llmOnly_indexEventOK htr1 e he
      · exact retrieve_events_ok env query f top_k e he
      · by_cases hav : env.llm_available = true
        · rw [if_pos hav] at he
          rcases hg : RAGPipeline.generate env query
              (RAGPipeline.retrieve env query f top_k).1 temperature max_tokens with ⟨gr, tr3⟩
          have htr3 : llmOnly tr3 := by
            have h := generate_events_llmOnly env query
              (RAGPipeline.retrieve env query f top_k).1 temperature max_tokens
            rw [hg] at h
            exact h
          rw [hg] at he
          cases gr with
          | ok a => exact llmOnly_indexEventOK htr3 e (by simpa using he)
          | error a => exact llmOnly_indexEventOK htr3 e (by simpa using he)
        · rw [if_neg hav] at he
          simp at he
  · rw [if_pos hns] at he
    rcases hcv : RAGPipeline.generate_conversational_response env query (c.2.getD "greeting")
      with ⟨cr, tr1⟩
    have htr1 : llmOnly tr1 := by
      have h := conv_events_llmOnly env query (c.2.getD "greeting")
      rw [hcv] at h
      exact h
    rw [hcv] at he
    cases cr with
    | ok a =>
      simp only [List.mem_append] at he
      rcases he with he | he
      · exact llmOnly_indexEventOK htr0 e he
      · exact llmOnly_indexEventOK htr1 e he
    | error a =>
      simp only [List.mem_append] at he
      rcases he with he | he
      · exact llmOnly_indexEventOK htr0 e he
      · exact llmOnly_indexEventOK htr1 e he

/-- Witness for C7: a run with a caller-supplied district filter
"Tây Hồ" produces an index event, and the theorem yields its validity. -/
theorem C7_witness :
    RestaurantSearchEngine.VALID_DISTRICTS.contains (pyStrip (pyLower "Tây Hồ")) = true :=
  C7_validated_district_invariant envNoLLM "quán bar đẹp" ⟨some "Tây Hồ", none, none⟩
    none (7/10) 800 true
    (Event.indexQuery "quán bar đẹp" 5 (some ⟨some "Tây Hồ", none, none⟩))
    (by decide) "quán bar đẹp" 5 ⟨some "Tây Hồ", none, none⟩ "Tây Hồ" rfl rfl

/-- C9: the district self-correction pass of RAGPipeline.generate.  For
every entry of the fixed misspelling table: when no entry applies (its
misspelling absent from the output, case-insensitively, or its correct
district absent from the venues), the output is unchanged; when exactly
one entry applies, the output is that entry's case-insensitive
replace-all and nothing else.  `correctionApplicable` is the source's
per-entry condition: misspelling occurs in the lowercased raw output AND
the correct name is among the retrieved venues' districts. -/
theorem C9_district_corrections (response : String) (venues : List Venue)
    (hne : venues ≠ []) :
    ((∀ wc ∈ districtCorrections,
        RAGPipeline.correctionApplicable (pyLower response) (venues.map Venue.district) wc
          = false) →
      RAGPipeline.districtCorrectionsPass venues response = response) ∧
    (∀ wc ∈ districtCorrections,
      RAGPipeline.correctionApplicable (pyLower response) (venues.map Venue.district) wc
        = true →
      (∀ wc2 ∈ districtCorrections, wc2 ≠ wc →
        RAGPipeline.correctionApplicable (pyLower response) (venues.map Venue.district) wc2
          = false) →
      RAGPipeline.districtCorrectionsPass venues response =
        ciReplaceStr wc.1 wc.2 response) := by
  have hve : venues.isEmpty = false := by
    cases venues
    · exact absurd rfl hne
    · rfl
  constructor
  · intro hnone
    simp only [RAGPipeline.districtCorrectionsPass, hve, Bool.false_eq_true, if_false]
    exact foldl_if_id _ _ districtCorrections response hnone
  · intro wc hwc happ hothers
    simp only [RAGPipeline.districtCorrectionsPass, hve, Bool.false_eq_true, if_false]
    exact foldl_if_single _ _ districtCorrections response wc (by decide) hwc happ hothers

/-- A venue whose district is Cầu Giấy. -/
def vCG : Venue := RestaurantSearchEngine.formatHit 0 testHit

/-- Witness for C9: the spec's own scenario -- output containing
"Cầu Gỗ", venue list whose only district is "Cầu Giấy" -- is rewritten
case-insensitively to the correct district. -/
theorem C9_witness :
    RAGPipeline.districtCorrectionsPass [vCG] "Quán ở Cầu Gỗ rất ngon" =
      ciReplaceStr "cầu gỗ" "Cầu Giấy" "Quán ở Cầu Gỗ rất ngon" ∧
    ciReplaceStr "cầu gỗ" "Cầu Giấy" "Quán ở Cầu Gỗ rất ngon" =
      "Quán ở Cầu Giấy rất ngon" :=
  ⟨(C9_district_corrections "Quán ở Cầu Gỗ rất ngon" [vCG] (by simp)).2
      ("cầu gỗ", "Cầu Giấy") (by decide) (by decide) (by decide),
   by decide⟩

/-- C10: the contradiction-suppression pass of RAGPipeline.generate.
With an empty venue list, or when no "nothing found" phrase occurs, the
output is unchanged by this pass; when the venues are non-empty, the
output is long (the code's criterion for "appearing after substantial
introductory text" is total length over 100 characters) and exactly one
phrase of the fixed set occurs, the output is truncated to the stripped
portion before that phrase's first occurrence. -/
theorem C10_negative_phrase_truncation (response : String) (venues : List Venue) :
    (venues = [] → RAGPipeline.negativePhrasePass venues response = response) ∧
    ((∀ p ∈ negativePhrases, pyIn p response = false) →
      RAGPipeline.negativePhrasePass venues response = response) ∧
    (∀ p ∈ negativePhrases, venues ≠ [] → response.length > 100 →
      pyIn p response = true →
      (∀ q ∈ negativePhrases, q ≠ p → pyIn q response = false) →
      RAGPipeline.negativePhrasePass venues response =
        pyStrip (beforeFirstStr p response)) := by
  refine ⟨?_, ?_, ?_⟩
  · intro hv
    subst hv
    rfl
  · intro hnone
    unfold RAGPipeline.negativePhrasePass
    split
    · exact negfold_id negativePhrases response hnone
    · rfl
  · intro p hp hne hlen hin hothers
    have hve : venues.isEmpty = false := by
      cases venues
      · exact absurd rfl hne
      · rfl
    have hcond : (¬ venues.isEmpty && response.length > 100) = true := by
      simp [hve, hlen]
    unfold RAGPipeline.negativePhrasePass
    rw [if_pos hcond]
    simp only [negativePhrases, List.mem_cons, List.not_mem_nil, or_false] at hp
    rcases hp with rfl | rfl | rfl
    · have hA : pyIn "Xin lỗi, không tìm thấy" response = false :=
        hothers _ (by decide) (by decide)
      have hB : pyIn "Không tìm thấy địa điểm phù hợp" response = false :=
        hothers _ (by decide) (by decide)
      have hA' : pyIn "Xin lỗi, không tìm thấy"
          (pyStrip (beforeFirstStr "Rất tiếc, tôi không tìm thấy" response)) = false := by
        rw [Bool.eq_false_iff]
        intro hh
        rw [pyIn_of_strip_before hh] at hA
        cases hA
      have hB' : pyIn "Không tìm thấy địa điểm phù hợp"
          (pyStrip (beforeFirstStr "Rất tiếc, tôi không tìm thấy" response)) = false := by
        rw [Bool.eq_false_iff]
        intro hh
        rw [pyIn_of_strip_before hh] at hB
        cases hB
      simp [negativePhrases, hin, hA', hB']
    · have hA : pyIn "Rất tiếc, tôi không tìm thấy" response = false :=
        hothers _ (by decide) (by decide)
      have hB : pyIn "Không tìm thấy địa điểm phù hợp" response = false :=
        hothers _ (by decide) (by decide)
      have hB' : pyIn "Không tìm thấy địa điểm phù hợp"
          (pyStrip (beforeFirstStr "Xin lỗi, không tìm thấy" response)) = false := by
        rw [Bool.eq_false_iff]
        intro hh
        rw [pyIn_of_strip_before hh] at hB
        cases hB
      simp [negativePhrases, hA, hin, hB']
    · have hA : pyIn "Rất tiếc, tôi không tìm thấy" response = false :=
        hothers _ (by decide) (by decide)
      have hB : pyIn "Xin lỗi, không tìm thấy" response = false :=
        hothers _ (by decide) (by decide)
      simp [negativePhrases, hA, hB, hin]

/-- A model output that lists a venue and then contradicts itself with a
"nothing found" phrase after more than 100 characters of text. -/
def contradictoryOutput : String :=
  "Dưới đây là danh sách các địa điểm phù hợp với yêu cầu của bạn: 1. Quan Ngon - nhà hàng bình dân tại Cầu Giấy. Rất tiếc, tôi không tìm thấy thêm."

set_option maxRecDepth 16384 in
/-- Witness for C10: the contradictory output is truncated at the first
occurrence of the "nothing found" phrase; only the stripped positive
portion remains. -/
theorem C10_witness :
    RAGPipeline.negativePhrasePass [vCG] contradictoryOutput =
      pyStrip (beforeFirstStr "Rất tiếc, tôi không tìm thấy" contradictoryOutput) ∧
    pyStrip (beforeFirstStr "Rất tiếc, tôi không tìm thấy" contradictoryOutput) =
      "Dưới đây là danh sách các địa điểm phù hợp với yêu cầu của bạn: 1. Quan Ngon - nhà hàng bình dân tại Cầu Giấy." :=
  ⟨(C10_negative_phrase_truncation contradictoryOutput [vCG]).2.2
      "Rất tiếc, tôi không tìm thấy" (by decide) (by simp) (by decide) (by decide)
      (by decide),
   by decide⟩
